import Mathlib

/-!
Verification of the Directus SDK authentication composable
(`sdk/src/auth/composable.ts`) and the localStorage mutex fallback
(`useMutex` / `localStorageLock`).

The TypeScript code is shallowly embedded: the mutable closure variables of
`authentication(...)` (`storage`, `refreshPromise`, `refreshTimeout`,
`realtimeRefresh`, the installed realtime handler) become an explicit
`SessionState`; each operation is a pure state-transition function taking the
current time (`new Date().getTime()`) and the network response as parameters
and additionally reporting the list of network requests it issued.  JS
nullish/falsy checks are modelled explicitly (`jsFalsyTime`, string
truthiness).  The localStorage lock loop is embedded with the values observed
by `localStorage.getItem` and the times returned by `Date.now()` at each poll
iteration given as sequences, since other tabs may write between polls.
-/

namespace Directus

/-- Opaque network / callback error codes. -/
abbrev Err := Nat

/-- The persisted credential record (`AuthenticationData` in `auth/types.ts`):
`access_token`, `refresh_token`, the server-reported lifetime `expires` and the
derived absolute `expires_at`. -/
structure AuthenticationData where
  access_token : Option String
  refresh_token : Option String
  expires : Option Int
  expires_at : Option Int
deriving DecidableEq, Repr

/-- The all-null record written by `resetStorage`. -/
def emptyAuthData : AuthenticationData :=
  { access_token := none, refresh_token := none, expires := none, expires_at := none }

/-- `AuthenticationMode`: `cookie`, `json` or `session`. -/
inductive AuthenticationMode where
  | cookie
  | json
  | session
deriving DecidableEq, Repr

/-- The configuration fields the embedded logic reads. -/
structure AuthenticationConfig where
  msRefreshBeforeExpires : Int
  autoRefresh : Bool
deriving DecidableEq, Repr

/-- `defaultConfigValues` from the source: 30000 ms lead, autoRefresh on. -/
def defaultConfigValues : AuthenticationConfig :=
  { msRefreshBeforeExpires := 30000, autoRefresh := true }

/-- `Number.MAX_SAFE_INTEGER`. -/
def maxSafeInteger : Int := 2 ^ 53 - 1

/-- Outcome of a `/auth/login` or `/auth/refresh` request. -/
inductive NetResult where
  | ok (data : AuthenticationData)
  | err (e : Err)
deriving DecidableEq, Repr

/-- Outcome of an awaited void operation (`logout`, `refreshIfExpired`). -/
inductive UnitResult where
  | ok
  | err (e : Err)
deriving DecidableEq, Repr

/-- Outcome of `getToken()`. -/
inductive TokenResult where
  | ok (token : Option String)
  | err (e : Err)
deriving DecidableEq, Repr

/-- The closure state of one `authentication(...)` client: the storage-held
record, the `refreshPromise` variable (in this atomic model a pending promise
is represented together with the outcome it settles to), the armed
`refreshTimeout` (absolute epoch-ms fire time), the channel rotation token
`realtimeRefresh`, and whether the realtime message handler is installed. -/
structure SessionState where
  storage : AuthenticationData
  refreshPromise : Option NetResult
  refreshTimeout : Option Int
  realtimeRefresh : Option String
  realtimeHandlerInstalled : Bool
deriving DecidableEq, Repr

/-- The state right after `authentication(...)` is applied to a client. -/
def initialState : SessionState :=
  { storage := emptyAuthData, refreshPromise := none, refreshTimeout := none,
    realtimeRefresh := none, realtimeHandlerInstalled := false }

/-- JS truthiness of an optional string (`null` and `""` are falsy). -/
def jsTruthyStr : Option String → Bool
  | none => false
  | some s => s != ""

/-- JS falsiness of the optional number `expires_at` (`null` and `0` are falsy),
as tested by `!authData?.expires_at`. -/
def jsFalsyTime : Option Int → Bool
  | none => true
  | some v => v == 0

/-- Body of a `/auth/refresh` or `/auth/logout` request:
`{ mode, refresh_token? }`, where the refresh token is included only when
`mode === 'json' && authData?.refresh_token` is truthy. -/
structure RequestBody where
  mode : AuthenticationMode
  refresh_token : Option String
deriving DecidableEq, Repr

/-- Builds the request body exactly as `refresh`/`logout` do. -/
def tokenBody (mode : AuthenticationMode) (authData : AuthenticationData) : RequestBody :=
  { mode := mode,
    refresh_token :=
      if mode = AuthenticationMode.json ∧ jsTruthyStr authData.refresh_token then
        authData.refresh_token
      else none }

/-- `setCredentials(data)`: overwrites `data.expires_at` with
`now + (data.expires ?? 0)`, stores the record, and when
`autoRefresh && expires > msRefreshBeforeExpires && expires < MAX_SAFE_INTEGER`
clears any pending timer and arms a new one with delay
`expires - msRefreshBeforeExpires` (stored here as its absolute fire time). -/
def setCredentials (cfg : AuthenticationConfig) (now : Int) (data : AuthenticationData)
    (s : SessionState) : SessionState :=
  let expires := data.expires.getD 0
  let stored := { data with expires_at := some (now + expires) }
  let s1 := { s with storage := stored }
  if cfg.autoRefresh = true ∧ cfg.msRefreshBeforeExpires < expires ∧ expires < maxSafeInteger then
    { s1 with refreshTimeout := some (now + (expires - cfg.msRefreshBeforeExpires)) }
  else s1

/-- Result of one `refresh()` call: final state, the outcome the returned
promise settles to, and the network requests issued. -/
structure RefreshOutcome where
  state : SessionState
  result : NetResult
  requests : List RequestBody
deriving DecidableEq, Repr

/-- `refresh()`: unconditionally runs `awaitRefresh` — reads the record, clears
storage, POSTs `/auth/refresh` with `tokenBody`, and on success stores the
response via `setCredentials`; assigns the (settled) promise to
`refreshPromise` and returns it.  Note the source never consults the existing
`refreshPromise` here. -/
def refresh (cfg : AuthenticationConfig) (mode : AuthenticationMode) (now : Int)
    (response : NetResult) (s : SessionState) : RefreshOutcome :=
  let authData := s.storage
  let s1 := { s with storage := emptyAuthData }
  let body := tokenBody mode authData
  match response with
  | NetResult.ok data =>
      let s2 := setCredentials cfg now data s1
      { state := { s2 with refreshPromise := some (NetResult.ok data) },
        result := NetResult.ok data, requests := [body] }
  | NetResult.err e =>
      { state := { s1 with refreshPromise := some (NetResult.err e) },
        result := NetResult.err e, requests := [body] }

/-- `activeRefresh()`: awaits `refreshPromise` (propagating its rejection) and
in its `finally` sets `refreshPromise = null`. -/
def activeRefresh (s : SessionState) : SessionState × UnitResult :=
  match s.refreshPromise with
  | none => ({ s with refreshPromise := none }, UnitResult.ok)
  | some (NetResult.ok _) => ({ s with refreshPromise := none }, UnitResult.ok)
  | some (NetResult.err e) => ({ s with refreshPromise := none }, UnitResult.err e)

/-- `refreshIfExpired()`: if a refresh promise exists or `expires_at` is falsy,
just awaits `activeRefresh`; otherwise, when `expires_at` is within
`msRefreshBeforeExpires` of `now`, fire-and-forgets `refresh()` (its own
rejection swallowed by the attached `.catch`) and then awaits `activeRefresh`
— which still observes the shared promise's failure. -/
def refreshIfExpired (cfg : AuthenticationConfig) (mode : AuthenticationMode) (now : Int)
    (response : NetResult) (s : SessionState) : SessionState × UnitResult × List RequestBody :=
  let authData := s.storage
  if s.refreshPromise.isSome ∨ jsFalsyTime authData.expires_at then
    ((activeRefresh s).1, (activeRefresh s).2, [])
  else if authData.expires_at.getD 0 < now + cfg.msRefreshBeforeExpires then
    let o := refresh cfg mode now response s
    ((activeRefresh o.state).1, (activeRefresh o.state).2, o.requests)
  else
    ((activeRefresh s).1, (activeRefresh s).2, [])

/-- `getToken()`: awaits `refreshIfExpired` (propagating any error), then reads
the store and returns `data?.access_token ?? null`. -/
def getToken (cfg : AuthenticationConfig) (mode : AuthenticationMode) (now : Int)
    (response : NetResult) (s : SessionState) : SessionState × TokenResult × List RequestBody :=
  match refreshIfExpired cfg mode now response s with
  | (s1, UnitResult.ok, reqs) => (s1, TokenResult.ok s1.storage.access_token, reqs)
  | (s1, UnitResult.err e, reqs) => (s1, TokenResult.err e, reqs)

/-- `setToken(access_token)`: overwrites the stored record with the given
access token and null refresh token / expiry fields.  It touches nothing else
in the closure state. -/
def setToken (access_token : Option String) (s : SessionState) : SessionState :=
  { s with storage :=
      { access_token := access_token, refresh_token := none, expires := none,
        expires_at := none } }

/-- `logout()`: reads the record, POSTs `/auth/logout` with `tokenBody`, and —
only after that `await` succeeds — removes the realtime handler, clears the
pending timer and resets storage.  A rejected request propagates before any
cleanup line runs. -/
def logout (mode : AuthenticationMode) (response : NetResult) (s : SessionState) :
    SessionState × UnitResult × RequestBody :=
  let authData := s.storage
  let body := tokenBody mode authData
  match response with
  | NetResult.err e => (s, UnitResult.err e, body)
  | NetResult.ok _ =>
      ({ s with
          realtimeHandlerInstalled := false
          refreshTimeout := none
          storage := emptyAuthData },
       UnitResult.ok, body)

/-- `login(email, password, options)`: resets storage, POSTs `/auth/login`, on
success stores the response via `setCredentials` and, when the realtime
feature is present, installs the reauth message handler. -/
def login (cfg : AuthenticationConfig) (now : Int)
    (response : NetResult) (realtimeEnabled : Bool) (s : SessionState) :
    SessionState × NetResult :=
  let s1 := { s with storage := emptyAuthData }
  match response with
  | NetResult.err e => (s1, NetResult.err e)
  | NetResult.ok data =>
      let s2 := setCredentials cfg now data s1
      let s3 := if realtimeEnabled then { s2 with realtimeHandlerInstalled := true } else s2
      (s3, NetResult.ok data)

/-- The armed `setTimeout` handler firing: sets `refreshTimeout = null`, then
calls `refresh()` with its rejection swallowed.  Returns the new state and the
network requests issued (none when no timer was armed). -/
def fireRefreshTimer (cfg : AuthenticationConfig) (mode : AuthenticationMode) (now : Int)
    (response : NetResult) (s : SessionState) : SessionState × List RequestBody :=
  match s.refreshTimeout with
  | none => (s, [])
  | some _ =>
      let s1 := { s with refreshTimeout := none }
      let o := refresh cfg mode now response s1
      (o.state, o.requests)

/-- An inbound websocket message as the handler inspects it:
`msg?.type`, `msg?.status`, `msg?.refresh_token`, `msg?.error?.code`. -/
structure WsMessage where
  type : Option String
  status : Option String
  refresh_token : Option String
  error_code : Option String
deriving DecidableEq, Repr

/-- Outbound websocket auth messages sent by the composable. -/
inductive OutMessage where
  | authLogin (email password : String)
  | authRefresh (refresh_token : String)
deriving DecidableEq, Repr

/-- The realtime message handler installed by `login`: on an auth message with
status `ok` it records `msg?.refresh_token ?? null` as the rotation token; on
status `error` with code `TOKEN_EXPIRED` it sends
`{type: "auth", refresh_token: realtimeRefresh}` when the recorded rotation
token is truthy.  Returns the new `realtimeRefresh` value and the outbound
messages sent while handling this one message. -/
def realtimeMessageHandler (realtimeRefresh : Option String) (msg : WsMessage) :
    Option String × List OutMessage :=
  if msg.type = some "auth" then
    if msg.status = some "ok" then
      (msg.refresh_token, [])
    else if msg.status = some "error" ∧ msg.error_code = some "TOKEN_EXPIRED" then
      match realtimeRefresh with
      | some r => if r != "" then (some r, [OutMessage.authRefresh r]) else (some r, [])
      | none => (none, [])
    else (realtimeRefresh, [])
  else (realtimeRefresh, [])

/-- The inbound `{type:"auth", status:"ok", refresh_token: r}` message. -/
def wsOkMsg (r : String) : WsMessage :=
  { type := some "auth", status := some "ok", refresh_token := some r, error_code := none }

/-- The inbound `{type:"auth", status:"error", error:{code:"TOKEN_EXPIRED"}}` message. -/
def wsTokenExpiredMsg : WsMessage :=
  { type := some "auth", status := some "error", refresh_token := none,
    error_code := some "TOKEN_EXPIRED" }

/-- Poll interval of the localStorage lock fallback (ms). -/
def timeout : Nat := 50

/-- Retry bound of the localStorage lock fallback. -/
def maxRetries : Nat := 10

/-- Observable trace of one `localStorageLock` call: whether ownership was
taken (`hasAcquiredMutex`), whether the callback ran, at which poll iteration
(if any) `setItem` wrote the lock and with which value, whether the `finally`
block removed the lock record, the error propagated out of the call (the
callback's, if it threw; `none` on the exhausted-retries path, which returns
normally), and how many poll iterations executed. -/
structure LockTrace where
  acquired : Bool
  callbackRan : Bool
  wroteLockAt : Option Nat
  writtenValue : Option Int
  removedLock : Bool
  result : Option Err
  iterations : Nat
deriving DecidableEq, Repr

/-- The trace of an acquisition succeeding at poll iteration `i` having
written lock value `v`, with the callback's error outcome `cbErr`. -/
def acquiredTrace (i : Nat) (v : Int) (cbErr : Option Err) : LockTrace :=
  { acquired := true, callbackRan := true, wroteLockAt := some i, writtenValue := some v,
    removedLock := true, result := cbErr, iterations := i + 1 }

/-- The trace of the loop giving up after `n` poll iterations: nothing was
written, the callback never ran, the `finally` removes nothing, and the
function returns normally. -/
def noLockTrace (n : Nat) : LockTrace :=
  { acquired := false, callbackRan := false, wroteLockAt := none, writtenValue := none,
    removedLock := false, result := none, iterations := n }

/-- The acquisition test of `localStorageLock`, verbatim from the source:
`!mutex || Number(mutex) > Date.now() + expiresMs`. -/
def lsAcquireCond (mutex : Option Int) (now : Int) (expiresMs : Int) : Bool :=
  match mutex with
  | none => true
  | some v => decide (v > now + expiresMs)

/-- One execution of the do-while loop of `localStorageLock`, starting at poll
iteration `i`: read the lock record (`observe i`), test `lsAcquireCond` at time
`timeAt i`; on success write `Date.now() + expiresMs`, run the callback and
release in `finally`; otherwise sleep and repeat while the incremented retry
counter stays below `maxRetries`.  The structural `fuel` argument only keeps
the recursion total; starting from `fuel = maxRetries` the guard always stops
the loop before fuel runs out. -/
def lsLockGo (expiresMs : Int) (observe : Nat → Option Int) (timeAt : Nat → Int)
    (callbackResult : Option Err) : Nat → Nat → LockTrace
  | i, 0 => noLockTrace i
  | i, fuel + 1 =>
    if lsAcquireCond (observe i) (timeAt i) expiresMs then
      acquiredTrace i (timeAt i + expiresMs) callbackResult
    else if i + 1 < maxRetries then
      lsLockGo expiresMs observe timeAt callbackResult (i + 1) fuel
    else
      noLockTrace (i + 1)

/-- `localStorageLock(callback)` for a lease of `expiresMs`, with the lock
record observed and the clock read at each poll iteration given as sequences
(other tabs may write between polls). -/
def localStorageLock (expiresMs : Int) (observe : Nat → Option Int) (timeAt : Nat → Int)
    (callbackResult : Option Err) : LockTrace :=
  lsLockGo expiresMs observe timeAt callbackResult 0 maxRetries

/-! ## Helper lemmas -/

/-- Whatever the timer branch does, `setCredentials` stores the input record
with `expires_at` overwritten by `now + (expires ?? 0)`. -/
theorem setCredentials_storage (cfg : AuthenticationConfig) (now : Int)
    (data : AuthenticationData) (s : SessionState) :
    (setCredentials cfg now data s).storage
      = { data with expires_at := some (now + data.expires.getD 0) } := by
  simp only [setCredentials]
  split
  · rfl
  · rfl

/-- `activeRefresh` always nulls out `refreshPromise` and changes nothing else. -/
theorem activeRefresh_state (s : SessionState) :
    (activeRefresh s).1 = { s with refreshPromise := none } := by
  unfold activeRefresh
  rcases h : s.refreshPromise with _ | r
  · rfl
  · cases r <;> rfl

/-- `activeRefresh` propagates the failure of the shared promise and resolves
otherwise. -/
theorem activeRefresh_result (s : SessionState) (e : Err)
    (h : s.refreshPromise = some (NetResult.err e)) :
    (activeRefresh s).2 = UnitResult.err e := by
  unfold activeRefresh
  rw [h]

/-- When the stored `expires_at` is null and no refresh promise is pending,
`getToken` issues no request and returns the stored access token. -/
theorem getToken_noexpiry (cfg : AuthenticationConfig) (mode : AuthenticationMode)
    (now : Int) (response : NetResult) (s : SessionState)
    (h1 : s.storage.expires_at = none) (h2 : s.refreshPromise = none) :
    getToken cfg mode now response s
      = ({ s with refreshPromise := none }, TokenResult.ok s.storage.access_token, []) := by
  have hif : refreshIfExpired cfg mode now response s
      = ({ s with refreshPromise := none }, UnitResult.ok, []) := by
    unfold refreshIfExpired
    rw [if_pos (Or.inr (by rw [h1]; rfl))]
    unfold activeRefresh
    rw [h2]
  unfold getToken
  rw [hif]

/-- When the acquisition condition fails at every poll iteration below the
retry bound, the `localStorageLock` loop gives up with the no-acquisition
trace, independent of the callback. -/
theorem lsLockGo_never (expiresMs : Int) (observe : Nat → Option Int) (timeAt : Nat → Int)
    (cb : Option Err) :
    ∀ fuel i, i + fuel = maxRetries → 0 < fuel →
      (∀ j, j < maxRetries → lsAcquireCond (observe j) (timeAt j) expiresMs = false) →
      lsLockGo expiresMs observe timeAt cb i fuel = noLockTrace maxRetries := by
  intro fuel
  induction fuel with
  | zero =>
    intro i _ hf _
    exact absurd hf (by omega)
  | succ n ih =>
    intro i h _ hc
    have hcond : lsAcquireCond (observe i) (timeAt i) expiresMs = false := hc i (by omega)
    have step : lsLockGo expiresMs observe timeAt cb i (n + 1)
        = if lsAcquireCond (observe i) (timeAt i) expiresMs then
            acquiredTrace i (timeAt i + expiresMs) cb
          else if i + 1 < maxRetries then
            lsLockGo expiresMs observe timeAt cb (i + 1) n
          else noLockTrace (i + 1) := rfl
    rw [step, hcond]
    rw [if_neg (by simp)]
    by_cases hlt : i + 1 < maxRetries
    · rw [if_pos hlt]
      exact ih (i + 1) (by omega) (by omega) hc
    · rw [if_neg hlt]
      have hend : i + 1 = maxRetries := by omega
      rw [hend]

/-! ## Claim theorems -/

/-- C1 (code bug): the spec says a persisted lock record whose stored expiry
has already passed no longer blocks acquisition, but the source tests
`Number(mutex) > Date.now() + expiresMs` instead of the lease having expired.
Concretely, with a stale record of expiry 100, current time 1000000 at every
poll, and a 1000 ms lease, the callback never runs, nothing is written, and
all 10 retries are exhausted — even though the record's expiry (100) is far in
the past. -/
theorem C1_stale_lock_blocks_acquisition :
    (localStorageLock 1000 (fun _ => some 100) (fun i => 1000000 + 50 * (i : Int))
        none).callbackRan = false ∧
    (localStorageLock 1000 (fun _ => some 100) (fun i => 1000000 + 50 * (i : Int))
        none).acquired = false ∧
    (localStorageLock 1000 (fun _ => some 100) (fun i => 1000000 + 50 * (i : Int))
        none).writtenValue = none ∧
    (100 : Int) < 1000000 := by
  decide

/-- State used to exercise `logout` on the failure path: a fully authenticated
session with an armed timer and an installed realtime handler. -/
def c2State : SessionState :=
  { storage := { access_token := some "a", refresh_token := some "r",
                 expires := some 900000, expires_at := some 900100 },
    refreshPromise := none, refreshTimeout := some 870100, realtimeRefresh := some "rr",
    realtimeHandlerInstalled := true }

/-- C2 counterexample: when the logout network request fails, `logout` rejects
before any cleanup line runs — the timer stays armed, the realtime handler
stays installed and the stored record is not cleared. -/
theorem C2_logout_cleanup_cex :
    (logout AuthenticationMode.json (NetResult.err 7) c2State).1 = c2State ∧
    c2State.refreshTimeout ≠ none ∧
    c2State.realtimeHandlerInstalled = true ∧
    c2State.storage ≠ emptyAuthData ∧
    (logout AuthenticationMode.json (NetResult.err 7) c2State).2.1 = UnitResult.err 7 := by
  decide

/-- C2 amended: logout's cleanup (listener removal, timer cancel, store clear)
runs only on the success path of the logout request; when the request fails,
the error propagates and the session state is left untouched. -/
theorem C2_logout_cleanup_amended (mode : AuthenticationMode) (s : SessionState) (e : Err)
    (d : AuthenticationData) :
    logout mode (NetResult.err e) s = (s, UnitResult.err e, tokenBody mode s.storage) ∧
    (logout mode (NetResult.ok d) s).1
      = { s with realtimeHandlerInstalled := false, refreshTimeout := none,
                 storage := emptyAuthData } := by
  exact ⟨rfl, rfl⟩

/-- Previously issued record used by the C3 counterexample. -/
def c3OldData : AuthenticationData :=
  { access_token := some "old", refresh_token := some "r0", expires := some 900000,
    expires_at := some 900100 }

/-- Server response used by the C3 counterexample. -/
def c3NewData : AuthenticationData :=
  { access_token := some "new", refresh_token := some "r1", expires := some 900000,
    expires_at := none }

/-- Session with a refresh future already present, for the C3 counterexample. -/
def c3State : SessionState :=
  { storage := c3OldData, refreshPromise := some (NetResult.ok c3OldData),
    refreshTimeout := none, realtimeRefresh := none, realtimeHandlerInstalled := false }

/-- C3 counterexample: with a refresh future already present, a direct
`refresh()` call still issues a network request and returns the new outcome,
not the existing future — so two direct calls mean two outstanding refresh
requests. -/
theorem C3_single_flight_cex :
    c3State.refreshPromise = some (NetResult.ok c3OldData) ∧
    (refresh defaultConfigValues AuthenticationMode.json 200 (NetResult.ok c3NewData)
        c3State).requests ≠ [] ∧
    (refresh defaultConfigValues AuthenticationMode.json 200 (NetResult.ok c3NewData)
        c3State).result ≠ NetResult.ok c3OldData := by
  decide

/-- C3 amended: `refresh()` itself always issues exactly one refresh network
request, regardless of any active future; the idempotent join lives in
`refreshIfExpired` (the path used by `getToken` and its scheduled trigger),
which, when a refresh future exists, issues no request, awaits that future's
outcome and tears it down. -/
theorem C3_single_flight_amended (cfg : AuthenticationConfig) (mode : AuthenticationMode)
    (now : Int) (response : NetResult) (s : SessionState) :
    (refresh cfg mode now response s).requests.length = 1 ∧
    (s.refreshPromise.isSome = true →
      (refreshIfExpired cfg mode now response s).2.2 = [] ∧
      (refreshIfExpired cfg mode now response s).1 = { s with refreshPromise := none } ∧
      (refreshIfExpired cfg mode now response s).2.1 = (activeRefresh s).2) := by
  constructor
  · cases response <;> rfl
  · intro h
    have hif : refreshIfExpired cfg mode now response s
        = ((activeRefresh s).1, (activeRefresh s).2, []) := by
      unfold refreshIfExpired
      rw [if_pos (Or.inl h)]
    rw [hif]
    exact ⟨rfl, activeRefresh_state s, rfl⟩

/-- Witness for C3 amended at a concrete in-flight state. -/
theorem C3_single_flight_witness :
    (refresh defaultConfigValues AuthenticationMode.json 0 (NetResult.err 3)
        c3State).requests.length = 1 ∧
    (refreshIfExpired defaultConfigValues AuthenticationMode.json 0 (NetResult.err 3)
        c3State).2.2 = [] ∧
    (refreshIfExpired defaultConfigValues AuthenticationMode.json 0 (NetResult.err 3)
        c3State).1 = { c3State with refreshPromise := none } ∧
    (refreshIfExpired defaultConfigValues AuthenticationMode.json 0 (NetResult.err 3)
        c3State).2.1 = (activeRefresh c3State).2 :=
  have h := C3_single_flight_amended defaultConfigValues AuthenticationMode.json 0
    (NetResult.err 3) c3State
  ⟨h.1, (h.2 rfl).1, (h.2 rfl).2.1, (h.2 rfl).2.2⟩

/-- Caller-supplied record with a null `expires` and a bogus `expires_at`,
used by the C4 counterexample. -/
def c4Data : AuthenticationData :=
  { access_token := some "a", refresh_token := some "r", expires := none,
    expires_at := some 999 }

/-- C4 counterexample: storing a record whose `expires` is null still yields a
non-null `expires_at` (the issuance time itself), refuting the claimed
"`expires_at` non-null iff `expires` non-null"; the caller-supplied 999 is
discarded. -/
theorem C4_expiry_iff_cex :
    ¬(((setCredentials defaultConfigValues 5000 c4Data initialState).storage.expires_at).isSome
        = true ↔ (c4Data.expires).isSome = true) ∧
    (setCredentials defaultConfigValues 5000 c4Data initialState).storage.expires_at
      = some 5000 := by
  decide

/-- C4 amended: after every `setCredentials`, the stored `expires_at` is
always non-null and equals the issuance time plus `expires ?? 0` — in
particular it equals issuance time plus `expires` whenever `expires` is
non-null, and it never depends on any caller-supplied `expires_at`. -/
theorem C4_expiry_derivation_amended (cfg : AuthenticationConfig) (now : Int)
    (data : AuthenticationData) (s : SessionState) :
    (setCredentials cfg now data s).storage.expires_at
      = some (now + data.expires.getD 0) ∧
    (∀ e : Option Int,
      (setCredentials cfg now { data with expires_at := e } s).storage.expires_at
        = some (now + data.expires.getD 0)) ∧
    (setCredentials cfg now data s).storage.access_token = data.access_token ∧
    (setCredentials cfg now data s).storage.refresh_token = data.refresh_token := by
  refine ⟨?_, fun e => ?_, ?_, ?_⟩
  · rw [setCredentials_storage]
  · rw [setCredentials_storage]
  · rw [setCredentials_storage]
  · rw [setCredentials_storage]

/-- Record whose `expires` is null, stored through `setCredentials` at
issuance time 1000, for the C5 counterexample. -/
def c5State : SessionState :=
  setCredentials defaultConfigValues 1000
    { access_token := some "tok", refresh_token := some "r", expires := none,
      expires_at := none }
    initialState

/-- Fresh server data returned by the refresh triggered in the C5 counterexample. -/
def c5Fresh : AuthenticationData :=
  { access_token := some "fresh", refresh_token := some "r1", expires := some 900000,
    expires_at := none }

/-- C5 counterexample: a record stored via `setCredentials` with a null
`expires` gets `expires_at` = issuance time, so once the clock passes it,
`getToken()` does trigger a refresh (and returns the refreshed token, not the
original one). -/
theorem C5_no_expiry_passthrough_cex :
    c5State.storage.expires = none ∧
    (getToken defaultConfigValues AuthenticationMode.json 1000000 (NetResult.ok c5Fresh)
        c5State).2.2 ≠ [] ∧
    (getToken defaultConfigValues AuthenticationMode.json 1000000 (NetResult.ok c5Fresh)
        c5State).2.1 ≠ TokenResult.ok (some "tok") := by
  decide

/-- C5 amended: the passthrough is keyed on `expires_at`, not `expires`: when
the stored `expires_at` is null (as after `setToken`) and no refresh future is
pending, every `getToken()` call returns the current access token without
issuing any refresh request, no matter the clock value. -/
theorem C5_no_expiry_passthrough_amended (cfg : AuthenticationConfig)
    (mode : AuthenticationMode) (now : Int) (response : NetResult) (s : SessionState)
    (h1 : s.storage.expires_at = none) (h2 : s.refreshPromise = none) :
    getToken cfg mode now response s
      = ({ s with refreshPromise := none }, TokenResult.ok s.storage.access_token, []) :=
  getToken_noexpiry cfg mode now response s h1 h2

/-- Witness for C5 amended: after `setToken`, `getToken` far in the future
still returns the token and issues nothing. -/
theorem C5_no_expiry_passthrough_witness :
    getToken defaultConfigValues AuthenticationMode.json 999999999 (NetResult.err 1)
        (setToken (some "tok") initialState)
      = ({ setToken (some "tok") initialState with refreshPromise := none },
         TokenResult.ok (some "tok"), []) :=
  C5_no_expiry_passthrough_amended defaultConfigValues AuthenticationMode.json 999999999
    (NetResult.err 1) (setToken (some "tok") initialState) rfl rfl

/-- C6 counterexample: `expires = 10000` satisfies `0 < expires < 2 ^ 53 - 1`,
yet with the default 30000 ms lead no timer is armed, because the source
requires `expires > msRefreshBeforeExpires`, not `expires > 0`. -/
theorem C6_scheduler_cex :
    (setCredentials defaultConfigValues 0
        { access_token := some "a", refresh_token := some "r", expires := some 10000,
          expires_at := none }
        initialState).refreshTimeout = none ∧
    defaultConfigValues.autoRefresh = true ∧
    (0 : Int) < 10000 ∧ (10000 : Int) < maxSafeInteger := by
  decide

/-- C6 amended: whenever `setCredentials` stores a record with `autoRefresh`
enabled and `msRefreshBeforeExpires < expires < 2 ^ 53 - 1`, the refresh timer
is armed to fire at `expires - msRefreshBeforeExpires` from now, replacing any
previously armed timer — so at most one scheduled refresh is pending. -/
theorem C6_scheduler_amended (cfg : AuthenticationConfig) (now : Int)
    (data : AuthenticationData) (s : SessionState) (e : Int)
    (he : data.expires = some e) (h1 : cfg.autoRefresh = true)
    (h2 : cfg.msRefreshBeforeExpires < e) (h3 : e < maxSafeInteger) :
    (setCredentials cfg now data s).refreshTimeout
      = some (now + (e - cfg.msRefreshBeforeExpires)) := by
  have hcond : cfg.autoRefresh = true ∧ cfg.msRefreshBeforeExpires < data.expires.getD 0 ∧
      data.expires.getD 0 < maxSafeInteger := by
    rw [he]
    exact ⟨h1, h2, h3⟩
  simp only [setCredentials]
  rw [if_pos hcond, he]
  rfl

/-- Witness for C6 amended at a concrete issuance. -/
theorem C6_scheduler_witness :
    (setCredentials defaultConfigValues 100
        { access_token := some "a", refresh_token := some "r", expires := some 60000,
          expires_at := none }
        initialState).refreshTimeout = some 30100 :=
  C6_scheduler_amended defaultConfigValues 100
    { access_token := some "a", refresh_token := some "r", expires := some 60000,
      expires_at := none }
    initialState 60000 rfl rfl (by decide) (by decide)

/-- C7: a failed refresh request propagates its error both as the result of
the `refresh()` call and to every caller joined on the shared promise (via
`activeRefresh`), leaves the stored record cleared (it was reset before the
request and never rewritten), and issues exactly one network request — no
retry. -/
theorem C7_refresh_failure_propagation (cfg : AuthenticationConfig)
    (mode : AuthenticationMode) (now : Int) (e : Err) (s : SessionState) :
    (refresh cfg mode now (NetResult.err e) s).result = NetResult.err e ∧
    (refresh cfg mode now (NetResult.err e) s).state.storage = emptyAuthData ∧
    (refresh cfg mode now (NetResult.err e) s).requests.length = 1 ∧
    (activeRefresh (refresh cfg mode now (NetResult.err e) s).state).2
      = UnitResult.err e := by
  exact ⟨rfl, rfl, rfl, rfl⟩

/-- C8: when the acquisition condition fails at all 10 poll iterations, the
fallback lock gives up silently: the callback never runs, nothing is written,
the `finally` block deletes no lock record (ownership was never taken), and
the call returns normally with no error. -/
theorem C8_lock_retry_exhaustion (expiresMs : Int) (observe : Nat → Option Int)
    (timeAt : Nat → Int) (cb : Option Err)
    (h : ∀ j, j < maxRetries → lsAcquireCond (observe j) (timeAt j) expiresMs = false) :
    localStorageLock expiresMs observe timeAt cb = noLockTrace maxRetries ∧
    (localStorageLock expiresMs observe timeAt cb).callbackRan = false ∧
    (localStorageLock expiresMs observe timeAt cb).removedLock = false ∧
    (localStorageLock expiresMs observe timeAt cb).result = none := by
  have key : localStorageLock expiresMs observe timeAt cb = noLockTrace maxRetries :=
    lsLockGo_never expiresMs observe timeAt cb maxRetries 0 (by omega) (by decide) h
  rw [key]
  exact ⟨rfl, rfl, rfl, rfl⟩

/-- Witness for C8: another tab holds a lock whose stored value never exceeds
`now + expiresMs`, so the condition fails at every poll. -/
theorem C8_lock_retry_exhaustion_witness :
    localStorageLock 5 (fun _ => some 0) (fun _ => 1000) none = noLockTrace maxRetries ∧
    (localStorageLock 5 (fun _ => some 0) (fun _ => 1000) none).callbackRan = false ∧
    (localStorageLock 5 (fun _ => some 0) (fun _ => 1000) none).removedLock = false ∧
    (localStorageLock 5 (fun _ => some 0) (fun _ => 1000) none).result = none :=
  C8_lock_retry_exhaustion 5 (fun _ => some 0) (fun _ => 1000) none (fun _ _ => rfl)

/-- C9: the reauth listener, run on an `ok` auth message carrying rotation
token `R` (a non-empty string), sends nothing at that point; a subsequent
`TOKEN_EXPIRED` auth error then makes it send exactly one
`{type: "auth", refresh_token: R}` message; with no rotation token recorded,
the expiry message produces no outbound message. -/
theorem C9_reauth_handshake (R : String) (hR : R ≠ "") (s0 : Option String) :
    (realtimeMessageHandler s0 (wsOkMsg R)).2 = [] ∧
    realtimeMessageHandler (realtimeMessageHandler s0 (wsOkMsg R)).1 wsTokenExpiredMsg
      = (some R, [OutMessage.authRefresh R]) ∧
    realtimeMessageHandler none wsTokenExpiredMsg = (none, []) := by
  refine ⟨rfl, ?_, by decide⟩
  have h1 : (realtimeMessageHandler s0 (wsOkMsg R)).1 = some R := rfl
  rw [h1]
  unfold realtimeMessageHandler wsTokenExpiredMsg
  simp [bne_iff_ne, hR]

/-- Witness for C9 at the concrete rotation token "R". -/
theorem C9_reauth_handshake_witness :
    (realtimeMessageHandler none (wsOkMsg "R")).2 = [] ∧
    realtimeMessageHandler (realtimeMessageHandler none (wsOkMsg "R")).1 wsTokenExpiredMsg
      = (some "R", [OutMessage.authRefresh "R"]) ∧
    realtimeMessageHandler none wsTokenExpiredMsg = (none, []) :=
  C9_reauth_handshake "R" (by decide) none

/-- Server payload of the login that precedes `setToken` in the C10
counterexample; its 900000 ms lifetime arms the proactive refresh timer. -/
def c10LoginData : AuthenticationData :=
  { access_token := some "t0", refresh_token := some "r0", expires := some 900000,
    expires_at := none }

/-- Server payload of the refresh fired by the leftover timer in the C10
counterexample. -/
def c10Fresh : AuthenticationData :=
  { access_token := some "t1", refresh_token := some "r1", expires := some 900000,
    expires_at := none }

/-- Authenticated-then-overridden session of the C10 counterexample. -/
def c10State : SessionState :=
  setToken (some "tok")
    (login defaultConfigValues 0 (NetResult.ok c10LoginData) false initialState).1

/-- C10 counterexample: `setToken` does not cancel the refresh timer armed by
the preceding login, so after `setToken(tok)` the timer is still pending and,
when it fires, a refresh network request is issued and the stored token is
replaced — auto-refresh still occurs. -/
theorem C10_set_token_cex :
    c10State.storage
      = { access_token := some "tok", refresh_token := none, expires := none,
          expires_at := none } ∧
    c10State.refreshTimeout ≠ none ∧
    (fireRefreshTimer defaultConfigValues AuthenticationMode.json 870000
        (NetResult.ok c10Fresh) c10State).2 ≠ [] ∧
    (fireRefreshTimer defaultConfigValues AuthenticationMode.json 870000
        (NetResult.ok c10Fresh) c10State).1.storage.access_token ≠ some "tok" := by
  decide

/-- C10 amended: `setToken(tok)` stores exactly the record
`{tok, null, null, null}`; `getToken()` then returns `tok` without issuing any
refresh (when no refresh future is pending) and `setToken` arms no timer — but
it also does not cancel a previously armed refresh timer, which may still
fire. -/
theorem C10_set_token_amended (tok : String) (s : SessionState)
    (cfg : AuthenticationConfig) (mode : AuthenticationMode) (now : Int)
    (response : NetResult) (h : s.refreshPromise = none) :
    (setToken (some tok) s).storage
      = { access_token := some tok, refresh_token := none, expires := none,
          expires_at := none } ∧
    getToken cfg mode now response (setToken (some tok) s)
      = ({ setToken (some tok) s with refreshPromise := none },
         TokenResult.ok (some tok), []) ∧
    (setToken (some tok) s).refreshTimeout = s.refreshTimeout := by
  refine ⟨rfl, ?_, rfl⟩
  exact getToken_noexpiry cfg mode now response (setToken (some tok) s) rfl h

/-- Witness for C10 amended at a concrete session. -/
theorem C10_set_token_witness :
    (setToken (some "tok") initialState).storage
      = { access_token := some "tok", refresh_token := none, expires := none,
          expires_at := none } ∧
    getToken defaultConfigValues AuthenticationMode.cookie 5 (NetResult.err 2)
        (setToken (some "tok") initialState)
      = ({ setToken (some "tok") initialState with refreshPromise := none },
         TokenResult.ok (some "tok"), []) ∧
    (setToken (some "tok") initialState).refreshTimeout = initialState.refreshTimeout :=
  C10_set_token_amended "tok" initialState defaultConfigValues AuthenticationMode.cookie 5
    (NetResult.err 2) rfl

end Directus
